import Mathlib

/-!
# Verification of the pci-zkp proof SDK core

Shallow embedding of the TypeScript sources of the `pci-zkp` repository
(attestation engines, network availability probe, indexer-backed proof
verification), together with theorems settling the specification claims.

Where a source file contains several iterative snapshots, the latest /
most complete snapshot is embedded:
* `sdk/src/proofs/age-verification.ts`, second snapshot (the one whose
  `verify` performs on-chain verification through the indexer);
* `sdk/src/proofs/credential-proof.ts`, the snapshot whose `verify`
  checks non-emptiness and raises on the unimplemented on-chain path;
* the Midnight client snapshot embedded in `sdk/src/midnight/witnesses.ts`
  (ledger v7), whose `isNetworkAvailable` probes both the proof server
  and the indexer.

JavaScript runtime values that flow through `publicSignals`
(`Record<string, unknown>`) are modelled by the inductive `JSVal`;
records are association lists looked up by key, `undefined` being the
absence of the key (`Option`).  JS numbers are modelled as `Int`: every
number handled by the embedded code paths is integral.  `Date` values
are modelled by their local calendar components, which is all the
embedded code ever reads from them (`getFullYear`/`getMonth`/`getDate`).
Network I/O (fetch, indexer GraphQL queries) is modelled by explicit
oracle parameters describing the environment's responses.
-/

namespace PciZkp

/-- A JavaScript runtime value as it appears in `publicSignals` entries. -/
inductive JSVal where
  | bool (b : Bool)
  | num (n : Int)
  | str (s : String)
  deriving DecidableEq, Repr

/-- `Record<string, unknown>` objects: an association list of fields, in
insertion order.  A field read (`signals.k`) is a lookup; a missing key is
JS `undefined`, modelled as `none`. -/
abbrev Signals : Type := List (String × JSVal)

/-- Field read on a JS object: `obj.k`.  `none` is `undefined`. -/
def getSignal (sig : Signals) (k : String) : Option JSVal :=
  sig.lookup k

/-- JS truthiness of an optional string: `undefined` and `""` are falsy. -/
def jsTruthy : Option String → Bool
  | none => false
  | some s => !(s == "")

/-- `typeof v === "boolean"` on a field read result. -/
def isBoolVal : Option JSVal → Bool
  | some (JSVal.bool _) => true
  | _ => false

/-- `typeof v === "number"` on a field read result. -/
def isNumVal : Option JSVal → Bool
  | some (JSVal.num _) => true
  | _ => false

/-- `typeof v === "string"` on a field read result. -/
def isStrVal : Option JSVal → Bool
  | some (JSVal.str _) => true
  | _ => false

/-- A JS `Date`, reduced to the local calendar components the embedded
code reads: `getFullYear()`, `getMonth()` (0-based) and `getDate()`. -/
structure JSDate where
  year : Int
  /-- 0-based month, as returned by `Date.prototype.getMonth`. -/
  month : Int
  day : Int
  deriving DecidableEq, Repr

/-- The `Proof` record from `sdk/src/types.ts`, including the optional
on-chain reference fields (`txId`, `contractAddress`, `blockHeight`) read
by the second age-verification snapshot and by the credential verifier. -/
structure Proof where
  proof : String
  publicSignals : Signals
  verificationKey : String
  circuitId : String
  timestamp : JSDate
  txId : Option String
  contractAddress : Option String
  blockHeight : Option Int
  deriving DecidableEq, Repr

/-! ## Model of the JS `Date` constructor for calendar components

`new Date(year, monthIndex, day)` builds a local date, normalizing
out-of-range components by calendar arithmetic (month overflow moves the
year, day overflow moves the month).  The embedded code only constructs
dates this way from a `YYYY-MM-DD` string match, so only the behaviour on
(possibly slightly out-of-range) two-digit components matters; the model
normalizes with the Gregorian month lengths. -/

/-- Gregorian leap-year rule, as implemented by JS `Date`. -/
def isLeapYear (y : Int) : Bool :=
  y % 4 == 0 && (y % 100 != 0 || y % 400 == 0)

/-- Days in month `m1` (1-based) of year `y`. -/
def daysInMonth (y : Int) (m1 : Int) : Int :=
  if m1 == 2 then (if isLeapYear y then 29 else 28)
  else if m1 == 4 || m1 == 6 || m1 == 9 || m1 == 11 then 30
  else 31

/-- Normalize an out-of-range day-of-month by walking across month
boundaries; `m0` is a 0-based month already in `[0, 11]`.  The fuel bounds
the walk; it is never exhausted for the day values the embedded code can
produce (at most two digits). -/
def normalizeDay : Nat → Int → Int → Int → JSDate
  | 0, y, m0, d => ⟨y, m0, d⟩
  | fuel + 1, y, m0, d =>
    if d < 1 then
      let y' := if m0 == 0 then y - 1 else y
      let m0' := if m0 == 0 then 11 else m0 - 1
      normalizeDay fuel y' m0' (d + daysInMonth y' (m0' + 1))
    else if d > daysInMonth y (m0 + 1) then
      let y' := if m0 == 11 then y + 1 else y
      let m0' := if m0 == 11 then 0 else m0 + 1
      normalizeDay fuel y' m0' (d - daysInMonth y (m0 + 1))
    else ⟨y, m0, d⟩

/-- Model of `new Date(year, monthIndex, day)` (local time): a year
argument in `[0, 99]` is first mapped to `1900 + year` (the ECMA-262
two-digit-year rule, `MakeFullYear`), then month overflow is folded into
the year with floored division, and the day is normalized against
Gregorian month lengths. -/
def jsMakeDate (y m0 d : Int) : JSDate :=
  normalizeDay 400 ((if 0 ≤ y ∧ y ≤ 99 then 1900 + y else y) + m0.fdiv 12) (m0.emod 12) d

/-! ## Birth-date input parsing (`AgeVerification.generate`) -/

/-- A JS `Date` object as received in input: either a valid date or an
*Invalid Date* (`getTime()` is `NaN`). -/
inductive DateValue where
  | valid (d : JSDate)
  | invalid
  deriving DecidableEq, Repr

/-- The `birthDate` member of a generate request: a `Date` object, a raw
string, or absent (`undefined`). -/
inductive BirthDateInput where
  | dateObj (v : DateValue)
  | strInput (s : String)
  | missing
  deriving DecidableEq, Repr

/-- Numeric value of a decimal digit character. -/
def digitVal (c : Char) : Int :=
  (c.toNat : Int) - 48

/-- The regular expression `^(\d{4})-(\d{2})-(\d{2})$` from
`AgeVerification.generate`, returning `Number(parts[1..3])` on a match. -/
def matchDateOnly (s : String) : Option (Int × Int × Int) :=
  match s.data with
  | [y1, y2, y3, y4, h1, m1, m2, h2, d1, d2] =>
    if y1.isDigit && y2.isDigit && y3.isDigit && y4.isDigit &&
        h1 == '-' && m1.isDigit && m2.isDigit &&
        h2 == '-' && d1.isDigit && d2.isDigit then
      some (digitVal y1 * 1000 + digitVal y2 * 100 + digitVal y3 * 10 + digitVal y4,
            digitVal m1 * 10 + digitVal m2,
            digitVal d1 * 10 + digitVal d2)
    else none
  | _ => none

/-- The birth-date parse at the head of `AgeVerification.generate`
(second snapshot, lines 344–358 of `sdk/src/proofs/age-verification.ts`):
a `Date` instance is used as-is, a falsy value (`undefined` or `""`)
yields `null`, a `YYYY-MM-DD` string is parsed as a *local* date through
`new Date(y, m - 1, d)`, and any other string goes through the generic
`new Date(string)` parser, modelled by the oracle `jsParse` (`none` for
an unparseable string, i.e. an Invalid Date).  The subsequent
`!birthDate || isNaN(birthDate.getTime())` test folds Invalid Dates into
`none` as well. -/
def parseBirthDate (jsParse : String → Option JSDate) :
    BirthDateInput → Option JSDate
  | BirthDateInput.dateObj (DateValue.valid d) => some d
  | BirthDateInput.dateObj DateValue.invalid => none
  | BirthDateInput.missing => none
  | BirthDateInput.strInput s =>
    if s == "" then none
    else
      match matchDateOnly s with
      | some (y, m, d) => some (jsMakeDate y (m - 1) d)
      | none => jsParse s

/-! ## Base64 and the opaque proof-data blobs -/

/-- The base64 alphabet character for a 6-bit value. -/
def b64Char (n : Nat) : Char :=
  "ABCDEFGHIJKLMNOPQRSTUVWXYZabcdefghijklmnopqrstuvwxyz0123456789+/".data.getD n 'A'

/-- Standard base64 over a byte list, three bytes at a time. -/
def base64Go : List Nat → String
  | [] => ""
  | [a] =>
    String.mk [b64Char (a / 4), b64Char (a % 4 * 16)] ++ "=="
  | [a, b] =>
    String.mk [b64Char (a / 4), b64Char (a % 4 * 16 + b / 16), b64Char (b % 16 * 4)] ++ "="
  | a :: b :: c :: rest =>
    String.mk [b64Char (a / 4), b64Char (a % 4 * 16 + b / 16),
               b64Char (b % 16 * 4 + c / 64), b64Char (c % 64)] ++ base64Go rest

/-- `Buffer.from(s).toString("base64")`. -/
def base64Encode (s : String) : String :=
  base64Go (s.toUTF8.toList.map (fun b => b.toNat))

/-- `AgeVerification.generatePlaceholderProofData`. -/
def generatePlaceholderProofData : String :=
  base64Encode "\x7b\"type\":\"age_verification\",\"version\":\"1.0\",\"placeholder\":true\x7d"

/-- `AgeVerification.generateMidnightProofData` (second snapshot). -/
def generateMidnightProofData (verified : Bool) (minAge : Int) : String :=
  base64Encode ("\x7b\"type\":\"age_verification\",\"version\":\"2.0\",\"network\":\"midnight\",\"verified\":"
    ++ (if verified then "true" else "false") ++ ",\"minAge\":" ++ toString minAge ++ "\x7d")

/-- `CredentialProof.generatePlaceholderProof`. -/
def credentialPlaceholderProofData : String :=
  base64Encode "\x7b\"type\":\"credential_proof\",\"version\":\"1.0\",\"placeholder\":true\x7d"

/-! ## Age-threshold attestation engine

Embeds the second snapshot of `sdk/src/proofs/age-verification.ts`
(lines 343–661).  The engine's `initialize`/`useMidnight` memoized flag
and the module-level Midnight client state are threaded as explicit
booleans: `live` is `clientState.connected && clientState.providers`
at generation time, `useMidnight` is the engine's own flag at
verification time. -/

namespace AgeVerification

/-- `AgeVerification.generatePlaceholder`: local age computation with the
0-based `getMonth()` components, `network: "mocked"` marker, no on-chain
reference.  `now` is the `new Date()` used for the record timestamp. -/
def generatePlaceholder (birthDate : JSDate) (minAge : Int) (currentDate : JSDate)
    (requesterDid : Option String) (now : JSDate) : Proof :=
  let birthYear := birthDate.year
  let birthMonth := birthDate.month
  let birthDay := birthDate.day
  let currentYear := currentDate.year
  let currentMonth := currentDate.month
  let currentDay := currentDate.day
  let birthdayPassed : Bool :=
    decide (currentMonth > birthMonth) ||
      (currentMonth == birthMonth && decide (currentDay ≥ birthDay))
  let age := if birthdayPassed then currentYear - birthYear else currentYear - birthYear - 1
  let verified : Bool := decide (age ≥ minAge)
  let base : Signals :=
    [("verified", JSVal.bool verified), ("minAge", JSVal.num minAge),
     ("network", JSVal.str "mocked")]
  let publicSignals : Signals :=
    match requesterDid with
    | some s => if s == "" then base else base ++ [("requesterDid", JSVal.str s)]
    | none => base
  { proof := generatePlaceholderProofData
    publicSignals := publicSignals
    verificationKey := "age_verification_vk_placeholder"
    circuitId := "age_verification"
    timestamp := now
    txId := none, contractAddress := none, blockHeight := none }

/-- `AgeVerification.generateWithMidnight` (second snapshot): the same
age computation with 1-based months (`getMonth() + 1`), `network:
"midnight"` marker, and — in this design increment — no on-chain
reference fields (the deployment/submission flow is documented but not
wired up).  The initial `!providers || !config` guard cannot fire in the
modelled flow, since `generate` only takes this path when the client
state holds providers (and an initialized connected state always carries
its config). -/
def generateWithMidnight (birthDate : JSDate) (minAge : Int) (currentDate : JSDate)
    (requesterDid : Option String) (now : JSDate) : Proof :=
  let birthYear := birthDate.year
  let birthMonth := birthDate.month + 1
  let birthDay := birthDate.day
  let currentYear := currentDate.year
  let currentMonth := currentDate.month + 1
  let currentDay := currentDate.day
  let birthdayPassed : Bool :=
    decide (currentMonth > birthMonth) ||
      (currentMonth == birthMonth && decide (currentDay ≥ birthDay))
  let age := if birthdayPassed then currentYear - birthYear else currentYear - birthYear - 1
  let verified : Bool := decide (age ≥ minAge)
  let base : Signals :=
    [("verified", JSVal.bool verified), ("minAge", JSVal.num minAge),
     ("network", JSVal.str "midnight")]
  let publicSignals : Signals :=
    match requesterDid with
    | some s => if s == "" then base else base ++ [("requesterDid", JSVal.str s)]
    | none => base
  { proof := generateMidnightProofData verified minAge
    publicSignals := publicSignals
    verificationKey := "age_verification_vk_midnight"
    circuitId := "age_verification"
    timestamp := now
    txId := none, contractAddress := none, blockHeight := none }

/-- The generate request, as the union type
`AgeProofInput | raw API input` received by `AgeVerification.generate`:
every member is optional at runtime. -/
structure GenInput where
  birthDate : BirthDateInput
  minAge : Option Int
  currentDate : Option JSDate
  requesterDid : Option String

/-- `AgeVerification.generate` (second snapshot): parse the birth date
(error proof on failure), default `minAge` to 18 and `currentDate` to
now, then branch on the client state.  `live` is
`clientState.connected && clientState.providers` after the lazy
`initialize()`. -/
def generate (jsParse : String → Option JSDate) (live : Bool) (now : JSDate)
    (input : GenInput) : Proof :=
  match parseBirthDate jsParse input.birthDate with
  | none =>
    { proof := ""
      publicSignals := [("verified", JSVal.bool false),
                        ("error", JSVal.str "Invalid or missing birth date")]
      verificationKey := ""
      circuitId := "age_verification"
      timestamp := now
      txId := none, contractAddress := none, blockHeight := none }
  | some birthDate =>
    let minAge := input.minAge.getD 18
    let currentDate := input.currentDate.getD now
    if live then
      generateWithMidnight birthDate minAge currentDate input.requesterDid now
    else
      generatePlaceholder birthDate minAge currentDate input.requesterDid now

end AgeVerification

/-- The indexer, seen through `queryContractState` / `queryTransaction`
(ledger v7 client snapshot): an environment oracle mapping a contract
address to its on-chain state record (`none` = not found / transport or
parse failure) and a transaction id to its confirmed block height
(`none` = not found / failure).  The functions collapse every failure to
`null`, so `Option` captures their entire observable behaviour. -/
structure Indexer where
  contractState : String → Option Signals
  transaction : String → Option Int

namespace AgeVerification

/-- `AgeVerification.verifyMidnightProof` (second snapshot): require both
on-chain reference fields (JS truthiness — `undefined` and `""` both
fail), read the contract state, compare its `verified` field with the
proof's claim under strict equality, confirm the transaction, and check
the claimed block height if one is present. -/
def verifyMidnightProof (idx : Indexer) (p : Proof) : Bool :=
  match p.txId, p.contractAddress with
  | some tx, some addr =>
    if tx == "" || addr == "" then false
    else
      match idx.contractState addr with
      | none => false
      | some contractState =>
        if getSignal contractState "verified" != getSignal p.publicSignals "verified" then
          false
        else
          match idx.transaction tx with
          | none => false
          | some txBlockHeight =>
            match p.blockHeight with
            | some claimed => !(txBlockHeight != claimed)
            | none => true
  | _, _ => false

/-- The `structureValid` conjunction of `AgeVerification.verify`:
`typeof signals.verified === "boolean" && typeof signals.minAge ===
"number"`. -/
def structureValid (p : Proof) : Bool :=
  isBoolVal (getSignal p.publicSignals "verified") &&
    isNumVal (getSignal p.publicSignals "minAge")

/-- The DID-binding rejection test of `AgeVerification.verify`:
`expectedDid && signals.requesterDid !== expectedDid` (a falsy — absent
or empty — `expectedDid` skips the check). -/
def didMismatch (p : Proof) (expectedDid : Option String) : Bool :=
  match expectedDid with
  | some d =>
    if d == "" then false
    else getSignal p.publicSignals "requesterDid" != some (JSVal.str d)
  | none => false

/-- `AgeVerification.verify` (second snapshot, lines 556–589): throw on a
wrong `circuitId`, then structural check (`verified` boolean, `minAge`
number), then the optional DID binding check, then branch on the
engine's own mode: on-chain verification when `useMidnight`, placeholder
trust otherwise. -/
def verify (useMidnight : Bool) (idx : Indexer) (p : Proof)
    (expectedDid : Option String) : Except String Bool :=
  if p.circuitId != "age_verification" then
    Except.error "Invalid circuit ID for age verification"
  else if !structureValid p then Except.ok false
  else if didMismatch p expectedDid then Except.ok false
  else if useMidnight then Except.ok (verifyMidnightProof idx p)
  else Except.ok true

end AgeVerification

/-! ## Credential-validity attestation engine

Embeds the complete snapshot of `sdk/src/proofs/credential-proof.ts`
(the one inside `sdk/src/proofs/generator.ts`, lines 52–153). -/

/-- `CredentialProofInput` from `sdk/src/types.ts`. -/
structure CredentialProofInput where
  credentialHash : String
  expiryTimestamp : Int
  issuerSignature : String
  issuerPublicKey : String
  credentialType : String

/-- JS truthiness of a field read (`!signals.valid`): `undefined`,
`false`, `0` and `""` are falsy. -/
def jsTruthyVal : Option JSVal → Bool
  | none => false
  | some (JSVal.bool b) => b
  | some (JSVal.num n) => !(n == 0)
  | some (JSVal.str s) => !(s == "")

namespace CredentialProof

/-- `CredentialProof.generate`: `valid = (expiryTimestamp > now) AND
(issuerSignature nonempty)`; the signals reveal only `valid`,
`credentialType` and `issuerPublicKey`.  `currentTimestamp` is
`Math.floor(Date.now() / 1000)`. -/
def generate (input : CredentialProofInput) (currentTimestamp : Int) (now : JSDate) : Proof :=
  let notExpired : Bool := decide (input.expiryTimestamp > currentTimestamp)
  let validSignature : Bool := decide (input.issuerSignature.length > 0)
  let valid : Bool := notExpired && validSignature
  { proof := credentialPlaceholderProofData
    publicSignals := [("valid", JSVal.bool valid),
                      ("credentialType", JSVal.str input.credentialType),
                      ("issuerPublicKey", JSVal.str input.issuerPublicKey)]
    verificationKey := "credential_proof_vk_placeholder"
    circuitId := "credential_proof"
    timestamp := now
    txId := none, contractAddress := none, blockHeight := none }

/-- `typeof v === "string" && v.length > 0` on a field read result. -/
def isNonEmptyStrVal : Option JSVal → Bool
  | some (JSVal.str s) => decide (s.length > 0)
  | _ => false

/-- The `structureValid` conjunction of `CredentialProof.verify`:
`valid` is a boolean, `credentialType` and `issuerPublicKey` are
non-empty strings. -/
def structureValid (p : Proof) : Bool :=
  isBoolVal (getSignal p.publicSignals "valid") &&
    isNonEmptyStrVal (getSignal p.publicSignals "credentialType") &&
    isNonEmptyStrVal (getSignal p.publicSignals "issuerPublicKey")

/-- `CredentialProof.verify` (complete snapshot): throw on a wrong
`circuitId`; structural check (`valid` boolean, `credentialType` and
`issuerPublicKey` non-empty strings); reject when `valid` is falsy;
throw the unimplemented-on-chain error when both `txId` and
`contractAddress` are (truthily) present; accept otherwise. -/
def verify (p : Proof) : Except String Bool :=
  if p.circuitId != "credential_proof" then
    Except.error "Invalid circuit ID for credential proof"
  else if !structureValid p then Except.ok false
  else if !(jsTruthyVal (getSignal p.publicSignals "valid")) then Except.ok false
  else if jsTruthy p.txId && jsTruthy p.contractAddress then
    Except.error "On-chain credential proof verification is not yet implemented"
  else Except.ok true

end CredentialProof

/-! ## Network availability probe

Embeds `isNetworkAvailable` from the ledger-v7 Midnight client snapshot
(in `sdk/src/midnight/witnesses.ts`, lines 186–212): merge the config
with the defaults, short-circuit to `false` on `skipNetworkCheck`, then
probe the proof server's `/health` and the indexer's GraphQL endpoint
concurrently, each fetch's rejection collapsed to `false` by its own
`.catch`, and return the conjunction. -/

/-- `MidnightConfig` (ledger v7 snapshot); every member is optional and
merged over `DEFAULT_CONFIG`. -/
structure MidnightConfig where
  proofServerUrl : Option String
  indexerUrl : Option String
  nodeUrl : Option String
  network : Option String
  skipNetworkCheck : Option Bool
  networkCheckTimeoutMs : Option Int
  contractAssetsPath : Option String

/-- Outcome of one `fetch`: resolved with a response (whose `ok` flag is
recorded) or rejected (network error / abort timeout). -/
inductive FetchOutcome where
  | ok (responseOk : Bool)
  | fail
  deriving DecidableEq, Repr

/-- The transport environment seen by one probe call: the outcome of the
proof-server health request and of the indexer introspection request. -/
structure ProbeEnv where
  proofServerHealth : FetchOutcome
  indexerProbe : FetchOutcome

/-- `.then((r) => r.ok).catch(() => false)`. -/
def fetchOk : FetchOutcome → Bool
  | FetchOutcome.ok b => b
  | FetchOutcome.fail => false

/-- `isNetworkAvailable` (ledger v7 snapshot).  The merged
`skipNetworkCheck` defaults to `false`; when set, the function returns
`false` before either request is issued — the result then does not
depend on `env` at all.  The outer `try`/`catch` cannot fire, since each
branch of the `Promise.all` already swallows its own rejection. -/
def isNetworkAvailable (config : MidnightConfig) (env : ProbeEnv) : Bool :=
  if config.skipNetworkCheck.getD false then false
  else fetchOk env.proofServerHealth && fetchOk env.indexerProbe

/-! ## Spec-side definitions

Definitions below follow the specification's words (not the source), for
comparison with the embedded code. -/

/-- The calendar age as the claims describe it: `currentYear - birthYear`,
decremented by one exactly when `(currentMonth, currentDay)`
lexicographically precedes `(birthMonth, birthDay)` — the birthday day
itself counting as passed.  Stated on the 0-based `getMonth` components;
the lexicographic comparison is invariant under the shift. -/
def calendarAge (birth current : JSDate) : Int :=
  if current.month < birth.month ∨ (current.month = birth.month ∧ current.day < birth.day)
  then current.year - birth.year - 1
  else current.year - birth.year

/-! ## Helper lemmas -/

/-- Reading the first field of a JS object literal. -/
theorem getSignal_head (k : String) (v : JSVal) (rest : Signals) :
    getSignal ((k, v) :: rest) k = some v := by
  simp [getSignal, List.lookup]

/-- The age computed by the placeholder path (0-based months) compares to
`minAge` exactly as the claims' `calendarAge` does. -/
theorem ageCalc_eq (byr bm bd cyr cm cd ma : Int) :
    (decide ((if (decide (cm > bm) || (cm == bm && decide (cd ≥ bd))) = true
        then cyr - byr else cyr - byr - 1) ≥ ma))
      = decide (calendarAge ⟨byr, bm, bd⟩ ⟨cyr, cm, cd⟩ ≥ ma) := by
  rw [decide_eq_decide]
  unfold calendarAge
  dsimp only
  split_ifs with hA hC hC <;>
  · simp only [Bool.or_eq_true, Bool.and_eq_true, decide_eq_true_eq, beq_iff_eq,
      Bool.not_eq_true, Bool.or_eq_false_iff, Bool.and_eq_false_iff,
      decide_eq_false_iff_not, beq_eq_false_iff_ne, not_lt, not_le] at hA
    omega

/-- The age computed by the live path (1-based months) compares to
`minAge` exactly as the claims' `calendarAge` does. -/
theorem ageCalcShifted_eq (byr bm bd cyr cm cd ma : Int) :
    (decide ((if (decide (cm + 1 > bm + 1) || (cm + 1 == bm + 1 && decide (cd ≥ bd))) = true
        then cyr - byr else cyr - byr - 1) ≥ ma))
      = decide (calendarAge ⟨byr, bm, bd⟩ ⟨cyr, cm, cd⟩ ≥ ma) := by
  rw [decide_eq_decide]
  unfold calendarAge
  dsimp only
  split_ifs with hA hC hC <;>
  · simp only [Bool.or_eq_true, Bool.and_eq_true, decide_eq_true_eq, beq_iff_eq,
      Bool.not_eq_true, Bool.or_eq_false_iff, Bool.and_eq_false_iff,
      decide_eq_false_iff_not, beq_eq_false_iff_ne, not_lt, not_le] at hA
    omega

/-- The `verified` signal of a placeholder proof is the calendar-age
comparison. -/
theorem getSignal_generatePlaceholder_verified (birth : JSDate) (minAge : Int)
    (current : JSDate) (did : Option String) (now : JSDate) :
    getSignal (AgeVerification.generatePlaceholder birth minAge current did now).publicSignals
      "verified" = some (JSVal.bool (decide (calendarAge birth current ≥ minAge))) := by
  unfold AgeVerification.generatePlaceholder
  dsimp only
  rcases did with _ | s
  · rw [getSignal_head, ageCalc_eq]
  · by_cases hs : (s == "") = true <;>
      simp only [hs, if_true, Bool.false_eq_true, if_false, List.cons_append] <;>
      rw [getSignal_head, ageCalc_eq]

/-- The `verified` signal of a live-path proof is the same calendar-age
comparison. -/
theorem getSignal_generateWithMidnight_verified (birth : JSDate) (minAge : Int)
    (current : JSDate) (did : Option String) (now : JSDate) :
    getSignal (AgeVerification.generateWithMidnight birth minAge current did now).publicSignals
      "verified" = some (JSVal.bool (decide (calendarAge birth current ≥ minAge))) := by
  unfold AgeVerification.generateWithMidnight
  dsimp only
  rcases did with _ | s
  · rw [getSignal_head, ageCalcShifted_eq]
  · by_cases hs : (s == "") = true <;>
      simp only [hs, if_true, Bool.false_eq_true, if_false, List.cons_append] <;>
      rw [getSignal_head, ageCalcShifted_eq]

/-- `normalizeDay` is the identity on an in-range day-of-month. -/
theorem normalizeDay_inRange (fuel : Nat) (y m0 d : Int) (hd1 : 1 ≤ d)
    (hd2 : d ≤ daysInMonth y (m0 + 1)) :
    normalizeDay (fuel + 1) y m0 d = ⟨y, m0, d⟩ := by
  unfold normalizeDay
  rw [if_neg (by omega), if_neg (by omega)]

/-- A month index in `[0, 11]` folds no overflow into the year. -/
theorem fdiv_emod_of_monthRange (m0 : Int) (hm0 : 0 ≤ m0) (hm1 : m0 < 12) :
    m0.fdiv 12 = 0 ∧ m0.emod 12 = m0 := by
  refine ⟨?_, Int.emod_eq_of_lt hm0 hm1⟩
  obtain ⟨n, rfl⟩ := Int.eq_ofNat_of_zero_le hm0
  have hn : n < 12 := by exact_mod_cast hm1
  cases n with
  | zero => rfl
  | succ k =>
    show Int.ofNat ((k + 1) / 12) = 0
    rw [Nat.div_eq_of_lt hn]
    rfl

/-- `new Date(y, m0, d)` keeps in-range components of a year outside the
two-digit range unchanged. -/
theorem jsMakeDate_inRange (y m0 d : Int) (hy : 100 ≤ y) (hm0 : 0 ≤ m0) (hm1 : m0 < 12)
    (hd1 : 1 ≤ d) (hd2 : d ≤ daysInMonth y (m0 + 1)) :
    jsMakeDate y m0 d = ⟨y, m0, d⟩ := by
  obtain ⟨hdiv, hmod⟩ := fdiv_emod_of_monthRange m0 hm0 hm1
  unfold jsMakeDate
  rw [hdiv, hmod, add_zero, if_neg (by omega : ¬(0 ≤ y ∧ y ≤ 99))]
  have h400 : (400 : Nat) = 399 + 1 := rfl
  rw [h400, normalizeDay_inRange 399 y m0 d hd1 hd2]

/-- `new Date(y, m0, d)` maps a year argument in `[0, 99]` to
`1900 + y` (in-range month and day otherwise unchanged). -/
theorem jsMakeDate_twoDigitYear (y m0 d : Int) (hy0 : 0 ≤ y) (hy1 : y ≤ 99)
    (hm0 : 0 ≤ m0) (hm1 : m0 < 12) (hd1 : 1 ≤ d)
    (hd2 : d ≤ daysInMonth (1900 + y) (m0 + 1)) :
    jsMakeDate y m0 d = ⟨1900 + y, m0, d⟩ := by
  obtain ⟨hdiv, hmod⟩ := fdiv_emod_of_monthRange m0 hm0 hm1
  unfold jsMakeDate
  rw [hdiv, hmod, add_zero, if_pos ⟨hy0, hy1⟩]
  have h400 : (400 : Nat) = 399 + 1 := rfl
  rw [h400, normalizeDay_inRange 399 (1900 + y) m0 d hd1 hd2]

/-- A string matched by the date-only pattern is not empty. -/
theorem matchDateOnly_ne_empty {s : String} {r : Int × Int × Int}
    (h : matchDateOnly s = some r) : (s == "") = false := by
  cases hs : s == "" with
  | false => rfl
  | true =>
    have hse : s = "" := by simpa using hs
    subst hse
    simp [matchDateOnly] at h

/-- A string is non-empty exactly when its length is positive. -/
theorem string_length_pos_iff (s : String) : s.length > 0 ↔ s ≠ "" := by
  cases s with
  | mk data =>
    simp only [String.mk_length]
    constructor
    · intro h he
      rw [show ("" : String) = String.mk [] from rfl] at he
      cases he
      simp at h
    · intro h
      cases data with
      | nil => exact absurd rfl h
      | cons a l => simp

/-- A resolved-or-failed fetch counts as a success exactly when it
resolved with a 2xx (`ok`) response. -/
theorem fetchOk_eq_true (o : FetchOutcome) : fetchOk o = true ↔ o = FetchOutcome.ok true := by
  cases o with
  | ok b => cases b <;> simp [fetchOk]
  | fail => simp [fetchOk]

/-! ## Claim theorems -/

/-- **C3**: the generated placeholder proof's `verified` signal is `true`
iff the calendar age — year difference, decremented when the current
month/day lexicographically precedes the birth month/day, the birthday
itself counting as passed — is at least `minAge`; with the two boundary
instances born 2000-12-15 evaluated 2024-12-15 (true) and 2024-12-14
(false) at `minAge` 24. -/
theorem ageVerified_iff_calendarAge :
    (∀ (birth : JSDate) (minAge : Int) (current : JSDate) (did : Option String) (now : JSDate),
      getSignal (AgeVerification.generatePlaceholder birth minAge current did now).publicSignals
        "verified" = some (JSVal.bool (decide (calendarAge birth current ≥ minAge))))
    ∧ getSignal (AgeVerification.generatePlaceholder ⟨2000, 11, 15⟩ 24 ⟨2024, 11, 15⟩ none
        ⟨2024, 11, 15⟩).publicSignals "verified" = some (JSVal.bool true)
    ∧ getSignal (AgeVerification.generatePlaceholder ⟨2000, 11, 15⟩ 24 ⟨2024, 11, 14⟩ none
        ⟨2024, 11, 14⟩).publicSignals "verified" = some (JSVal.bool false) :=
  ⟨getSignal_generatePlaceholder_verified, by decide, by decide⟩

/-- **C4**: the live-mode generation path and the placeholder path compute
the same `verified` signal for identical inputs. -/
theorem liveAndPlaceholderAgree (birth : JSDate) (minAge : Int) (current : JSDate)
    (did : Option String) (now : JSDate) :
    getSignal (AgeVerification.generateWithMidnight birth minAge current did now).publicSignals
        "verified"
      = getSignal (AgeVerification.generatePlaceholder birth minAge current did now).publicSignals
        "verified" := by
  rw [getSignal_generateWithMidnight_verified, getSignal_generatePlaceholder_verified]

/-- **C5**: the availability probe is a total function of the
configuration and the transport environment (it cannot throw); it returns
`true` exactly when the skip flag is off and both the proof-server health
check and the indexer check resolved successfully — so any transport
failure on either sub-check yields `false` — and with the skip flag set it
returns `false` whatever the environment would answer, i.e. without
depending on any request. -/
theorem probe_contract (config : MidnightConfig) (env : ProbeEnv) :
    (isNetworkAvailable config env = true ↔
      config.skipNetworkCheck.getD false = false ∧
        env.proofServerHealth = FetchOutcome.ok true ∧
        env.indexerProbe = FetchOutcome.ok true)
    ∧ (∀ env2 : ProbeEnv,
        isNetworkAvailable { config with skipNetworkCheck := some true } env2 = false) := by
  constructor
  · unfold isNetworkAvailable
    rcases hskip : config.skipNetworkCheck.getD false with _ | _ <;>
      simp [hskip, fetchOk_eq_true]
  · intro env2
    simp [isNetworkAvailable]

/-- **C6**: when the birth date is missing or unparseable, `generate`
returns (rather than throwing) a proof with empty proof bytes,
`verified: false`, the error signal set, and no on-chain reference. -/
theorem generate_invalidBirthDate (jsParse : String → Option JSDate) (live : Bool)
    (now : JSDate) (input : AgeVerification.GenInput)
    (h : parseBirthDate jsParse input.birthDate = none) :
    (AgeVerification.generate jsParse live now input).proof = ""
    ∧ getSignal (AgeVerification.generate jsParse live now input).publicSignals "verified"
        = some (JSVal.bool false)
    ∧ getSignal (AgeVerification.generate jsParse live now input).publicSignals "error"
        = some (JSVal.str "Invalid or missing birth date")
    ∧ (AgeVerification.generate jsParse live now input).txId = none
    ∧ (AgeVerification.generate jsParse live now input).contractAddress = none
    ∧ (AgeVerification.generate jsParse live now input).blockHeight = none := by
  unfold AgeVerification.generate
  rw [h]
  exact ⟨rfl, rfl, rfl, rfl, rfl, rfl⟩

/-- Witness for `generate_invalidBirthDate` at the missing-birth-date
input. -/
theorem generate_invalidBirthDate_witness :
    parseBirthDate (fun _ => none) BirthDateInput.missing = none
    ∧ (AgeVerification.generate (fun _ => none) false ⟨2024, 0, 1⟩
        ⟨BirthDateInput.missing, some 18, none, none⟩).proof = "" :=
  ⟨rfl, (generate_invalidBirthDate (fun _ => none) false ⟨2024, 0, 1⟩
      ⟨BirthDateInput.missing, some 18, none, none⟩ rfl).1⟩

/-- **C7, counterexample**: the four-digit year field "0050" is *not*
interpreted as year 50: the JS `Date` constructor maps year arguments
0–99 to `1900 + year`, so the birth-date string "0050-05-15" parses to
May 15, 1950 — not to the local calendar date its digits name. -/
theorem dateOnly_twoDigitYear_shifted :
    parseBirthDate (fun _ => none) (BirthDateInput.strInput "0050-05-15")
        = some ⟨1950, 4, 15⟩
    ∧ parseBirthDate (fun _ => none) (BirthDateInput.strInput "0050-05-15")
        ≠ some ⟨50, 4, 15⟩ := by
  exact ⟨by decide, by decide⟩

/-- **C7, amended**: a `YYYY-MM-DD` birth-date string naming a real
calendar date with year at least 0100 is interpreted as exactly that
local calendar date via the regex branch (the generic UTC-midnight
string parser oracle is never consulted); a string whose year field is
0000–0099 is instead interpreted with year `1900 + year` (the JS `Date`
constructor's two-digit-year rule); and the concrete boundary input
"2000-05-15" against local 2024-05-15 at `minAge` 24 verifies. -/
theorem dateOnlyString_parsedAsLocalDate :
    (∀ (s : String) (y m d : Int) (jsParse : String → Option JSDate),
      matchDateOnly s = some (y, m, d) →
      100 ≤ y → 1 ≤ m → m ≤ 12 → 1 ≤ d → d ≤ daysInMonth y m →
      parseBirthDate jsParse (BirthDateInput.strInput s) = some ⟨y, m - 1, d⟩)
    ∧ (∀ (s : String) (y m d : Int) (jsParse : String → Option JSDate),
      matchDateOnly s = some (y, m, d) →
      0 ≤ y → y ≤ 99 → 1 ≤ m → m ≤ 12 → 1 ≤ d → d ≤ daysInMonth (1900 + y) m →
      parseBirthDate jsParse (BirthDateInput.strInput s) = some ⟨1900 + y, m - 1, d⟩)
    ∧ getSignal (AgeVerification.generate (fun _ => none) false ⟨2024, 4, 15⟩
        ⟨BirthDateInput.strInput "2000-05-15", some 24, some ⟨2024, 4, 15⟩, none⟩).publicSignals
        "verified" = some (JSVal.bool true) := by
  refine ⟨?_, ?_, by decide⟩
  · intro s y m d jsParse hmatch hy hm1 hm2 hd1 hd2
    have hne := matchDateOnly_ne_empty hmatch
    simp only [parseBirthDate, hne, Bool.false_eq_true, if_false, hmatch]
    have hmm : m - 1 + 1 = m := by omega
    rw [jsMakeDate_inRange y (m - 1) d hy (by omega) (by omega) hd1 (by rw [hmm]; exact hd2)]
  · intro s y m d jsParse hmatch hy0 hy1 hm1 hm2 hd1 hd2
    have hne := matchDateOnly_ne_empty hmatch
    simp only [parseBirthDate, hne, Bool.false_eq_true, if_false, hmatch]
    have hmm : m - 1 + 1 = m := by omega
    rw [jsMakeDate_twoDigitYear y (m - 1) d hy0 hy1 (by omega) (by omega) hd1
      (by rw [hmm]; exact hd2)]

/-- Witness for `dateOnlyString_parsedAsLocalDate`: the pass-through part
at "2000-05-15" and the 1900-shift part at "0050-05-15". -/
theorem dateOnlyString_parsedAsLocalDate_witness :
    matchDateOnly "2000-05-15" = some (2000, 5, 15)
    ∧ parseBirthDate (fun _ => none) (BirthDateInput.strInput "2000-05-15")
        = some ⟨2000, 4, 15⟩
    ∧ matchDateOnly "0050-05-15" = some (50, 5, 15)
    ∧ parseBirthDate (fun _ => none) (BirthDateInput.strInput "0050-05-15")
        = some ⟨1950, 4, 15⟩ :=
  ⟨by decide,
   dateOnlyString_parsedAsLocalDate.1 "2000-05-15" 2000 5 15 (fun _ => none)
      (by decide) (by decide) (by decide) (by decide) (by decide) (by decide),
   by decide,
   dateOnlyString_parsedAsLocalDate.2.1 "0050-05-15" 50 5 15 (fun _ => none)
      (by decide) (by decide) (by decide) (by decide) (by decide) (by decide) (by decide)⟩

/-- **C9**: a generated credential proof's signals are exactly `valid`
(true iff the expiry is strictly in the future and the issuer signature
is non-empty), `credentialType` and `issuerPublicKey` — the credential
hash and the signature are not among them. -/
theorem credentialSignals_exact (input : CredentialProofInput) (currentTimestamp : Int)
    (now : JSDate) :
    ((CredentialProof.generate input currentTimestamp now).publicSignals
      = [("valid", JSVal.bool (decide (input.expiryTimestamp > currentTimestamp)
            && decide (input.issuerSignature ≠ ""))),
         ("credentialType", JSVal.str input.credentialType),
         ("issuerPublicKey", JSVal.str input.issuerPublicKey)])
    ∧ (getSignal (CredentialProof.generate input currentTimestamp now).publicSignals "valid"
        = some (JSVal.bool true)
      ↔ (input.expiryTimestamp > currentTimestamp ∧ input.issuerSignature ≠ "")) := by
  have hsig : (decide (input.issuerSignature.length > 0))
      = (decide (input.issuerSignature ≠ "")) := by
    rw [decide_eq_decide]
    exact string_length_pos_iff input.issuerSignature
  constructor
  · unfold CredentialProof.generate
    dsimp only
    rw [hsig]
  · unfold CredentialProof.generate
    dsimp only
    rw [getSignal_head, hsig]
    simp [decide_eq_true_eq]

/-- **C10**: neither verifier reads the proof bytes, the verification key
or the generation timestamp: two proofs agreeing on `circuitId`,
`publicSignals` and the on-chain reference fields verify identically
(same boolean, or the same raised failure), in any engine mode, any
indexer environment, and against any expected DID. -/
theorem verifyIgnoresOpaqueFields (sig : Signals) (cid : String)
    (tx addr : Option String) (bh : Option Int) (useMidnight : Bool) (idx : Indexer)
    (expectedDid : Option String) (pr1 pr2 vk1 vk2 : String) (t1 t2 : JSDate) :
    (AgeVerification.verify useMidnight idx ⟨pr1, sig, vk1, cid, t1, tx, addr, bh⟩ expectedDid
      = AgeVerification.verify useMidnight idx ⟨pr2, sig, vk2, cid, t2, tx, addr, bh⟩ expectedDid)
    ∧ (CredentialProof.verify ⟨pr1, sig, vk1, cid, t1, tx, addr, bh⟩
      = CredentialProof.verify ⟨pr2, sig, vk2, cid, t2, tx, addr, bh⟩) :=
  ⟨rfl, rfl⟩

/-- **C1, counterexample**: a proof marked `network: "midnight"` with no
on-chain reference is *accepted* by an engine in offline mode — the
claim's unconditional rejection of pending live proofs does not hold. -/
theorem pendingLiveProof_acceptedOffline :
    AgeVerification.verify false ⟨fun _ => none, fun _ => none⟩
      ⟨"cGVuZGluZw==", [("verified", JSVal.bool true), ("minAge", JSVal.num 18),
        ("network", JSVal.str "midnight")],
       "age_verification_vk_midnight", "age_verification", ⟨2024, 0, 1⟩, none, none, none⟩
      none = Except.ok true := by
  rfl

/-- **C1, amended**: when the verifying engine's own mode is live, an
age proof marked `network: "midnight"` that carries no on-chain reference
is rejected (`verify` returns `false`), regardless of the other
signals. -/
theorem livePendingProof_rejectedInLiveMode (idx : Indexer) (p : Proof)
    (expectedDid : Option String)
    (hcirc : p.circuitId = "age_verification")
    (_hnet : getSignal p.publicSignals "network" = some (JSVal.str "midnight"))
    (htx : p.txId = none) (haddr : p.contractAddress = none) :
    AgeVerification.verify true idx p expectedDid = Except.ok false := by
  have hmid : AgeVerification.verifyMidnightProof idx p = false := by
    unfold AgeVerification.verifyMidnightProof
    rw [htx, haddr]
  unfold AgeVerification.verify
  rw [hcirc]
  cases hsv : AgeVerification.structureValid p <;>
    cases hdm : AgeVerification.didMismatch p expectedDid <;>
    simp [hsv, hdm, hmid]

/-- Witness for `livePendingProof_rejectedInLiveMode` at a concrete
pending live-marked proof. -/
theorem livePendingProof_rejectedInLiveMode_witness :
    getSignal [("verified", JSVal.bool true), ("minAge", JSVal.num 18),
        ("network", JSVal.str "midnight")] "network" = some (JSVal.str "midnight")
    ∧ AgeVerification.verify true ⟨fun _ => none, fun _ => none⟩
      ⟨"cGVuZGluZw==", [("verified", JSVal.bool true), ("minAge", JSVal.num 18),
        ("network", JSVal.str "midnight")],
       "age_verification_vk_midnight", "age_verification", ⟨2024, 0, 1⟩, none, none, none⟩
      none = Except.ok false :=
  ⟨by decide, livePendingProof_rejectedInLiveMode ⟨fun _ => none, fun _ => none⟩
      ⟨"cGVuZGluZw==", [("verified", JSVal.bool true), ("minAge", JSVal.num 18),
        ("network", JSVal.str "midnight")],
       "age_verification_vk_midnight", "age_verification", ⟨2024, 0, 1⟩, none, none, none⟩
      none rfl (by decide) rfl rfl⟩

/-- **C2, counterexample**: an engine in live mode *does* accept a proof
marked `network: "mocked"` when it carries on-chain reference fields that
the indexer corroborates — the claim's "never returns true in live mode"
does not hold. -/
theorem mockedProof_acceptedInLiveMode :
    AgeVerification.verify true
      ⟨fun a => if a == "0xabc" then some [("verified", JSVal.bool true)] else none,
       fun t => if t == "tx1" then some 5 else none⟩
      ⟨"bW9ja2Vk", [("verified", JSVal.bool true), ("minAge", JSVal.num 18),
        ("network", JSVal.str "mocked")],
       "age_verification_vk_placeholder", "age_verification", ⟨2024, 0, 1⟩,
       some "tx1", some "0xabc", none⟩ none = Except.ok true := by
  rfl

/-- **C2, amended**: a structurally valid mocked proof passing the DID
check is accepted by an engine in offline mode; and when it carries no
on-chain reference fields (as placeholder proofs do not), an engine in
live mode rejects it. -/
theorem mockedProof_trustByEngineMode (idx : Indexer) (p : Proof)
    (expectedDid : Option String)
    (hcirc : p.circuitId = "age_verification")
    (_hnet : getSignal p.publicSignals "network" = some (JSVal.str "mocked"))
    (hstr : AgeVerification.structureValid p = true)
    (hdid : AgeVerification.didMismatch p expectedDid = false)
    (htx : p.txId = none) (haddr : p.contractAddress = none) :
    AgeVerification.verify false idx p expectedDid = Except.ok true
    ∧ AgeVerification.verify true idx p expectedDid = Except.ok false := by
  have hmid : AgeVerification.verifyMidnightProof idx p = false := by
    unfold AgeVerification.verifyMidnightProof
    rw [htx, haddr]
  unfold AgeVerification.verify
  rw [hcirc]
  simp [hstr, hdid, hmid]

/-- Witness for `mockedProof_trustByEngineMode` at a concrete placeholder
proof. -/
theorem mockedProof_trustByEngineMode_witness :
    AgeVerification.structureValid
      ⟨"bW9ja2Vk", [("verified", JSVal.bool true), ("minAge", JSVal.num 18),
        ("network", JSVal.str "mocked")],
       "age_verification_vk_placeholder", "age_verification", ⟨2024, 0, 1⟩,
       none, none, none⟩ = true
    ∧ AgeVerification.verify false ⟨fun _ => none, fun _ => none⟩
      ⟨"bW9ja2Vk", [("verified", JSVal.bool true), ("minAge", JSVal.num 18),
        ("network", JSVal.str "mocked")],
       "age_verification_vk_placeholder", "age_verification", ⟨2024, 0, 1⟩,
       none, none, none⟩ none = Except.ok true
    ∧ AgeVerification.verify true ⟨fun _ => none, fun _ => none⟩
      ⟨"bW9ja2Vk", [("verified", JSVal.bool true), ("minAge", JSVal.num 18),
        ("network", JSVal.str "mocked")],
       "age_verification_vk_placeholder", "age_verification", ⟨2024, 0, 1⟩,
       none, none, none⟩ none = Except.ok false := by
  refine ⟨by decide, ?_⟩
  have h := mockedProof_trustByEngineMode ⟨fun _ => none, fun _ => none⟩
      ⟨"bW9ja2Vk", [("verified", JSVal.bool true), ("minAge", JSVal.num 18),
        ("network", JSVal.str "mocked")],
       "age_verification_vk_placeholder", "age_verification", ⟨2024, 0, 1⟩,
       none, none, none⟩ none rfl (by decide) (by decide) (by decide) rfl rfl
  exact h

/-- **C8, counterexample**: a credential proof that carries both on-chain
reference fields but whose `valid` signal is `false` makes `verify`
return `false` rather than raise the unimplemented-on-chain failure. -/
theorem credProof_onChainRefs_invalid_returnsFalse :
    CredentialProof.verify
      ⟨"cHJvb2Y=", [("valid", JSVal.bool false), ("credentialType", JSVal.str "passport"),
        ("issuerPublicKey", JSVal.str "pk123")],
       "credential_proof_vk_placeholder", "credential_proof", ⟨2024, 0, 1⟩,
       some "tx1", some "0xabc", none⟩ = Except.ok false := by
  rfl

/-- **C8, amended**: for a credential proof with matching statement type,
`verify` returns `true` iff `valid` is boolean `true`, `credentialType`
and `issuerPublicKey` are non-empty strings, and the on-chain reference
fields are not both present; it raises the unimplemented-on-chain failure
iff those signal checks pass *and* both on-chain reference fields are
present (the failure is only reached after the structural and validity
checks). -/
theorem credVerify_contract (p : Proof) (hcirc : p.circuitId = "credential_proof") :
    (CredentialProof.verify p = Except.ok true ↔
      (getSignal p.publicSignals "valid" = some (JSVal.bool true)
        ∧ (∃ s, s ≠ "" ∧ getSignal p.publicSignals "credentialType" = some (JSVal.str s))
        ∧ (∃ s, s ≠ "" ∧ getSignal p.publicSignals "issuerPublicKey" = some (JSVal.str s))
        ∧ ¬(jsTruthy p.txId = true ∧ jsTruthy p.contractAddress = true)))
    ∧ (CredentialProof.verify p
        = Except.error "On-chain credential proof verification is not yet implemented" ↔
      (getSignal p.publicSignals "valid" = some (JSVal.bool true)
        ∧ (∃ s, s ≠ "" ∧ getSignal p.publicSignals "credentialType" = some (JSVal.str s))
        ∧ (∃ s, s ≠ "" ∧ getSignal p.publicSignals "issuerPublicKey" = some (JSVal.str s))
        ∧ jsTruthy p.txId = true ∧ jsTruthy p.contractAddress = true)) := by
  unfold CredentialProof.verify CredentialProof.structureValid
  rw [hcirc]
  rcases hv : getSignal p.publicSignals "valid" with _ | v
  case none => simp [isBoolVal]
  all_goals rcases v with b | n | s
  all_goals rcases htp : getSignal p.publicSignals "credentialType" with _ | w
  all_goals try rcases w with b2 | n2 | s2
  all_goals rcases hk : getSignal p.publicSignals "issuerPublicKey" with _ | u
  all_goals try rcases u with b3 | n3 | s3
  all_goals cases hx : jsTruthy p.txId
  all_goals cases ha : jsTruthy p.contractAddress
  all_goals simp [isBoolVal, CredentialProof.isNonEmptyStrVal, jsTruthyVal, hx, ha, string_length_pos_iff]
  all_goals try cases b
  all_goals try simp_all
  all_goals split_ifs <;> simp_all

/-- Witness for `credVerify_contract` at a concrete valid credential
proof with no on-chain reference. -/
theorem credVerify_contract_witness :
    CredentialProof.verify
      ⟨"cHJvb2Y=", [("valid", JSVal.bool true), ("credentialType", JSVal.str "passport"),
        ("issuerPublicKey", JSVal.str "pk123")],
       "credential_proof_vk_placeholder", "credential_proof", ⟨2024, 0, 1⟩,
       none, none, none⟩ = Except.ok true :=
  (credVerify_contract
      ⟨"cHJvb2Y=", [("valid", JSVal.bool true), ("credentialType", JSVal.str "passport"),
        ("issuerPublicKey", JSVal.str "pk123")],
       "credential_proof_vk_placeholder", "credential_proof", ⟨2024, 0, 1⟩,
       none, none, none⟩ rfl).1.mpr
    ⟨by decide, ⟨"passport", by decide, by decide⟩, ⟨"pk123", by decide, by decide⟩,
      by decide⟩

end PciZkp
